import Mathlib

/-!
Verification development for the Ask360 question-answering core
(`ask360_core.py`): intent routing, synthetic data generation, metadata
extraction, pseudo-SQL reconstruction, the five intent handlers and the
`answer` assembler, shallowly embedded in Lean 4.

Modelling conventions:
* Python floats are modelled as exact rationals (`ℚ`).
* The global NumPy random source is modelled as explicit state
  (`RandState`, a seed plus a draw counter); the standard-normal stream is
  an abstract parameter `PyEnv.gauss : Nat → Nat → ℚ` indexed by seed and
  draw position, so "np.random.seed(n)" resets the state and every
  subsequent draw is a deterministic function of `n` and the position.
* Python's per-process string `hash` is the abstract `PyEnv.pyhash`.
* `re.search` on the lower-cased question is implemented by a small
  regular-expression engine based on Brzozowski derivatives; the
  word-boundary guards `\b ... (?!\w)` of the market patterns are
  implemented by `boundedFirstPos`, which requires a non-word character
  (or the string edge) on both sides of the match.
-/

set_option maxRecDepth 8000

namespace Ask360

/-! ### A small regular-expression engine (Brzozowski derivatives) -/

inductive Regex where
  | emp : Regex
  | eps : Regex
  | cls (p : Char → Bool) : Regex
  | cat (r1 r2 : Regex) : Regex
  | alt (r1 r2 : Regex) : Regex
  | star (r : Regex) : Regex

def Regex.nullable : Regex → Bool
  | .emp => false
  | .eps => true
  | .cls _ => false
  | .cat r1 r2 => r1.nullable && r2.nullable
  | .alt r1 r2 => r1.nullable || r2.nullable
  | .star _ => true

def Regex.deriv : Regex → Char → Regex
  | .emp, _ => .emp
  | .eps, _ => .emp
  | .cls p, c => if p c then .eps else .emp
  | .cat r1 r2, c =>
      if r1.nullable then .alt (.cat (r1.deriv c) r2) (r2.deriv c)
      else .cat (r1.deriv c) r2
  | .alt r1 r2, c => .alt (r1.deriv c) (r2.deriv c)
  | .star r, c => .cat (r.deriv c) (.star r)

/-- Does some prefix of `t` match `r`? -/
def hasMatchFrom (r : Regex) : List Char → Bool
  | [] => r.nullable
  | c :: t => r.nullable || hasMatchFrom (r.deriv c) t

/-- `re.search` semantics: does some substring of `t` match `r`? -/
def reSearch (r : Regex) : List Char → Bool
  | [] => r.nullable
  | c :: t => hasMatchFrom r (c :: t) || reSearch r t

/-- Word character in the sense of `\w` (ASCII). -/
def isWordChar (c : Char) : Bool :=
  (('a' ≤ c && c ≤ 'z') || ('A' ≤ c && c ≤ 'Z') || ('0' ≤ c && c ≤ '9') || c == '_')

/-- Does some prefix of `t` match `r` with a non-word character (or the end
of the string) immediately after the match (the `(?!\w)` guard)? -/
def matchEndsOk (r : Regex) : List Char → Bool
  | [] => r.nullable
  | c :: t => (r.nullable && !isWordChar c) || matchEndsOk (r.deriv c) t

/-- Leftmost start position of a match of `r` in `t` that is preceded by a
non-word character (or the start) and followed by a non-word character (or
the end): the `\b ... (?!\w)` guards of the market patterns.
`prevW` records whether the character before the current suffix is a word
character. -/
def boundedPosAux (r : Regex) : Bool → List Char → Nat → Option Nat
  | prevW, [], i => if !prevW && r.nullable then some i else none
  | prevW, c :: t, i =>
      if !prevW && matchEndsOk r (c :: t) then some i
      else boundedPosAux r (isWordChar c) t (i + 1)

def boundedFirstPos (r : Regex) (t : List Char) : Option Nat :=
  boundedPosAux r false t 0

def boundedSearch (r : Regex) (t : List Char) : Bool :=
  (boundedFirstPos r t).isSome

/-! ### Regex construction helpers and the concrete patterns -/

def chr (c : Char) : Regex := .cls (fun x => x == c)

def lit (s : String) : Regex := s.data.foldr (fun c r => .cat (chr c) r) .eps

def isSpaceChar (c : Char) : Bool :=
  c == ' ' || c == '\t' || c == '\n' || c == '\r' || c == '\x0b' || c == '\x0c'

/-- `\s+` -/
def ws : Regex := .cat (.cls isSpaceChar) (.star (.cls isSpaceChar))

/-- `.` (any character but a newline, Python `re` without DOTALL) -/
def anyChar : Regex := .cls (fun c => !(c == '\n'))

/-- `.*` -/
def dotStar : Regex := .star anyChar

def ropt (r : Regex) : Regex := .alt .eps r

def altList : List Regex → Regex
  | [] => .emp
  | [r] => r
  | r :: rest => .alt r (altList rest)

/-- Words joined by `\s+`. -/
def phrase : List String → Regex
  | [] => .eps
  | [w] => lit w
  | w :: rest => .cat (lit w) (.cat ws (phrase rest))

/- Router patterns, from `_route_intent`. -/
def trendPat : Regex :=
  altList [lit "trend", phrase ["last", "12", "months"], lit "monthly",
           phrase ["how", "is", "yogurt", "doing"]]

def growthPat : Regex :=
  altList [.cat (phrase ["top", "3"]) (.cat dotStar (lit "growth")),
           .cat (lit "which") (.cat dotStar (phrase ["growth", "markets"])),
           phrase ["fastest", "growing"]]

def segmentPat : Regex :=
  altList [phrase ["repeat", "rate"], phrase ["trial", "vs", "repeat"],
           lit "18-34", lit "35-54"]

def occasionsPat : Regex :=
  altList [lit "occasion", phrase ["consumption", "occasions"],
           phrase ["when", "do", "people", "consume"]]

/-- `e-?commerce|retail` -/
def ecomOrRetail : Regex :=
  .alt (.cat (lit "e") (.cat (ropt (chr '-')) (lit "commerce"))) (lit "retail")

def channelPackPat : Regex :=
  altList [.cat ecomOrRetail
             (.cat dotStar (altList [lit "single", lit "multi", lit "multipack"])),
           phrase ["channel", "grew", "faster"]]

/-! ### Lower-casing (ASCII, as the questions and patterns are ASCII) -/

def lowerChar (c : Char) : Char :=
  if 'A' ≤ c && c ≤ 'Z' then Char.ofNat (c.toNat + 32) else c

def lowerStr (s : String) : List Char := s.data.map lowerChar

/-! ### Intent routing (`_route_intent`) -/

def _route_intent (question : String) : String :=
  let ql := lowerStr question
  if reSearch trendPat ql then "trend"
  else if reSearch growthPat ql then "growth_markets"
  else if reSearch segmentPat ql then "segment_repeat"
  else if reSearch occasionsPat ql then "occasions"
  else if reSearch channelPackPat ql then "channel_pack"
  else "trend"

/-- The router's pattern table, in the fixed priority order of the source. -/
def routeTable : List (Regex × String) :=
  [(trendPat, "trend"), (growthPat, "growth_markets"),
   (segmentPat, "segment_repeat"), (occasionsPat, "occasions"),
   (channelPackPat, "channel_pack")]

/-- First-match-wins routing over a pattern table, with a default label. -/
def firstLabel (dflt : String) : List (Regex × String) → List Char → String
  | [], _ => dflt
  | (r, lbl) :: rest, ql => if reSearch r ql then lbl else firstLabel dflt rest ql

/-! ### The Python environment: abstract PRNG stream and string hash -/

/-- The unspecified parts of the Python runtime: the standard-normal draw
stream of the seeded NumPy Mersenne Twister (`gauss seed i` is the i-th
standard-normal value after `np.random.seed seed`) and the per-process
string `hash`. -/
structure PyEnv where
  gauss : Nat → Nat → ℚ
  pyhash : String → Int

/-- The global NumPy random state: the last seed set and how many normal
draws have been taken since. -/
structure RandState where
  seed : Nat
  counter : Nat

/-- `np.random.seed n` -/
def npSeed (n : Nat) : RandState := ⟨n, 0⟩

/-- `np.random.normal(mu, sigma)` on the global state. -/
def npNormal (env : PyEnv) (mu sigma : ℚ) (s : RandState) : ℚ × RandState :=
  (mu + sigma * env.gauss s.seed s.counter, ⟨s.seed, s.counter + 1⟩)

/-! ### Synthetic data generation (`_generate_facts`, `_generate_segments`,
`_get_occasions`) -/

/-- One row of the sales fact table; `date` is split into year and month
(all dates are month starts). -/
structure SalesFact where
  year : Nat
  month : Nat
  market : String
  channel : String
  product : String
  pack : String
  sales_usd : ℚ
  units : ℚ
deriving DecidableEq

def markets : List String := ["US", "UK", "DE", "IN", "BR"]

def channels : List String := ["retail", "ecommerce"]

def packs : List String := ["single", "multipack"]

/-- `pd.date_range('2023-01-01', '2024-12-31', freq='MS')`: the 24 month
starts from January 2023 through December 2024, as (year, month). -/
def monthsList : List (Nat × Nat) :=
  ((List.range 12).map (fun i => (2023, i + 1))) ++
  ((List.range 12).map (fun i => (2024, i + 1)))

/-- A (date, market, channel, pack) loop index of `_generate_facts`. -/
def FactCombo : Type := (Nat × Nat) × String × String × String

instance : DecidableEq FactCombo :=
  inferInstanceAs (DecidableEq ((Nat × Nat) × String × String × String))

/-- The nested loop order of `_generate_facts`: date, then market, then
channel, then pack. -/
def factCombos : List FactCombo :=
  monthsList.flatMap (fun d =>
    markets.flatMap (fun m =>
      channels.flatMap (fun c =>
        packs.map (fun p => (d, m, c, p)))))

/-- The body of the innermost loop of `_generate_facts`: one normal draw,
the multiplier formula, the non-negativity clamps. -/
def genFactRow (env : PyEnv) (co : FactCombo) (s : RandState) : SalesFact × RandState :=
  let y := co.1.1
  let mo := co.1.2
  let market := co.2.1
  let channel := co.2.2.1
  let pack := co.2.2.2
  let draw := npNormal env 0 0.1 s
  let base : ℚ := if market = "US" then 100000 else 50000
  let multiplier : ℚ := if y = 2024 then 1 else 0.8
  let channel_mult : ℚ := if channel = "ecommerce" then 1.2 else 1
  let pack_mult : ℚ := if pack = "multipack" then 1.1 else 1
  let sales_usd := base * multiplier * channel_mult * pack_mult * (1 + draw.1)
  let units := sales_usd / 3.5
  (⟨y, mo, market, channel, "yogurt", pack, max 0 sales_usd, max 0 units⟩, draw.2)

/-- The loop of `_generate_facts`, threading the global random state. -/
def genFactRows (env : PyEnv) : List FactCombo → RandState → List SalesFact × RandState
  | [], s => ([], s)
  | co :: rest, s =>
      let rp := genFactRow env co s
      let rec' := genFactRows env rest rp.2
      (rp.1 :: rec'.1, rec'.2)

/-- `_generate_facts`: reseeds the global source with 42, then generates one
row per (date, market, channel, pack) combination. The input state is
overwritten by the reseed, so the output never depends on it. -/
def _generate_facts (env : PyEnv) (_s : RandState) : List SalesFact × RandState :=
  genFactRows env factCombos (npSeed 42)

/-- One row of the segment statistics table. -/
structure SegmentStat where
  year : Nat
  market : String
  age_bucket : String
  trial_rate : ℚ
  repeat_rate : ℚ
deriving DecidableEq

def age_buckets : List String := ["18-34", "35-54", "55+"]

/-- The (market, age) loop order of `_generate_segments`. -/
def segCombos : List (String × String) :=
  markets.flatMap (fun m => age_buckets.map (fun a => (m, a)))

/-- The loop body of `_generate_segments`: the hash-derived base rates, one
normal draw per rate, the upper clamp at 1.0 (and no lower clamp). -/
def genSegRow (env : PyEnv) (co : String × String) (s : RandState) :
    SegmentStat × RandState :=
  let market := co.1
  let age := co.2
  let h := env.pyhash (market ++ age)
  let base_trial : ℚ := 0.15 + ((h % 20 : Int) : ℚ) / 100
  let base_repeat : ℚ := 0.35 + ((h % 30 : Int) : ℚ) / 100
  let d1 := npNormal env 0 0.02 s
  let d2 := npNormal env 0 0.03 d1.2
  (⟨2024, market, age, min 1 (base_trial + d1.1), min 1 (base_repeat + d2.1)⟩, d2.2)

def genSegRows (env : PyEnv) : List (String × String) → RandState →
    List SegmentStat × RandState
  | [], s => ([], s)
  | co :: rest, s =>
      let rp := genSegRow env co s
      let rec' := genSegRows env rest rp.2
      (rp.1 :: rec'.1, rec'.2)

/-- `_generate_segments`: reseeds with 42 and generates one row per
(market, age_bucket) pair for year 2024. -/
def _generate_segments (env : PyEnv) (_s : RandState) : List SegmentStat × RandState :=
  genSegRows env segCombos (npSeed 42)

/-- `_get_occasions`: the fixed occasion/share list. -/
def _get_occasions : List (String × ℚ) :=
  [("breakfast", 0.45), ("post-workout", 0.18), ("snack", 0.27), ("late-night", 0.10)]

/-! ### Metadata extraction (`_extract_metadata`) -/

/-- Is `as` a leading segment of `bs`? -/
def listStarts : List Char → List Char → Bool
  | [], _ => true
  | _ :: _, [] => false
  | a :: as, b :: bs => a == b && listStarts as bs

/-- Does `needle` occur contiguously in `hay`? -/
def listInfixB (needle : List Char) : List Char → Bool
  | [] => listStarts needle []
  | c :: t => listStarts needle (c :: t) || listInfixB needle t

/-- Python `needle in hay` on strings. -/
def strContains (hay needle : String) : Bool := listInfixB needle.data hay.data

/- The five market patterns; the surrounding `\b ... (?!\w)` guards (and the
inner `\b` of `us\b`, `uk\b`, `de\b`, `br\b`, equivalent to the trailing
guard) are applied by `boundedSearch` / `boundedFirstPos`. -/
def usPat : Regex := .alt (phrase ["united", "states"]) (lit "us")

def ukPat : Regex := .alt (phrase ["united", "kingdom"]) (lit "uk")

def dePat : Regex := .alt (lit "germany") (lit "de")

def inPat : Regex :=
  altList [lit "india", phrase ["in", "market"], phrase ["in", "region"],
           phrase ["india", "market"]]

def brPat : Regex := .alt (lit "brazil") (lit "br")

/-- The market pattern table, in the order the source tests it. -/
def marketPatterns : List (Regex × String) :=
  [(usPat, "US"), (ukPat, "UK"), (dePat, "DE"), (inPat, "IN"), (brPat, "BR")]

/-- The detection loop of `_extract_metadata`: append each matching market
code, skipping codes already present. -/
def detectMarketsAux : List (Regex × String) → List String → List Char → List String
  | [], acc, _ => acc
  | (r, code) :: rest, acc, ql =>
      if boundedSearch r ql then
        if code ∈ acc then detectMarketsAux rest acc ql
        else detectMarketsAux rest (acc ++ [code]) ql
      else detectMarketsAux rest acc ql

def detectMarkets (ql : List Char) : List String := detectMarketsAux marketPatterns [] ql

/- Time-range patterns. -/
def tr12Pat : Regex := .alt (phrase ["last", "12", "months"]) (phrase ["12", "months"])

def tr2024Pat : Regex := .alt (lit "2024") (phrase ["twenty", "twenty", "four"])

def tr2023Pat : Regex := .alt (lit "2023") (phrase ["twenty", "twenty", "three"])

def trYoyPat : Regex :=
  altList [phrase ["last", "year"], lit "yoy", phrase ["year", "over", "year"]]

def trYtdPat : Regex := .alt (phrase ["year", "to", "date"]) (lit "ytd")

/- Filter patterns. -/
def ecomPat : Regex :=
  .alt (.cat (lit "e") (.cat (ropt (chr '-')) (lit "commerce"))) (lit "ecommerce")

def retailPat : Regex := lit "retail"

def multiPat : Regex := .alt (lit "multipack") (phrase ["multi", "pack"])

def singlePat : Regex := .alt (phrase ["single", "pack"]) (lit "single")

def age1834Pat : Regex := .alt (lit "18-34") (phrase ["18", "to", "34"])

def age3554Pat : Regex := .alt (lit "35-54") (phrase ["35", "to", "54"])

def age55Pat : Regex := .alt (lit "55+") (phrase ["55", "plus"])

def allMarketsSentinel : String := "All markets (US, UK, DE, IN, BR)"

structure Metadata where
  data_sources : List String
  time_range : Option String
  regions : List String
  filters : List String
deriving DecidableEq

/-- `_extract_metadata`. The source also receives the handler result, but
never reads it; the embedding therefore takes only the question and the
intent. -/
def _extract_metadata (question intent : String) : Metadata :=
  let ql := lowerStr question
  let data_sources : List String :=
    if intent = "trend" ∨ intent = "growth_markets" ∨ intent = "channel_pack" then
      ["Insights360 - Sales Facts"]
    else if intent = "segment_repeat" then ["Insights360 - Segment Analytics"]
    else if intent = "occasions" then ["Past Projects - Consumer Research"]
    else []
  let detectedRange : Option String :=
    if reSearch tr12Pat ql then some "Last 12 months"
    else if reSearch tr2024Pat ql then some "2024"
    else if reSearch tr2023Pat ql then some "2023"
    else if reSearch trYoyPat ql then some "2023-2024 (YoY)"
    else if reSearch trYtdPat ql then some "Year to date"
    else none
  let time_range : Option String :=
    match detectedRange with
    | some t => some t
    | none =>
        if intent = "trend" then some "2024"
        else if intent = "growth_markets" ∨ intent = "channel_pack" then
          some "2023-2024 (YoY)"
        else if intent = "segment_repeat" then some "2024"
        else if intent = "occasions" then some "Current"
        else none
  let detected := detectMarkets ql
  let regions : List String :=
    if detected = [] then
      if intent = "trend" ∨ intent = "growth_markets" ∨ intent = "channel_pack" then
        [allMarketsSentinel]
      else if intent = "segment_repeat" then [allMarketsSentinel]
      else ["Global"]
    else detected
  let filters0 : List String :=
    (if reSearch ecomPat ql then ["Channel: E-commerce"] else []) ++
    (if reSearch retailPat ql then ["Channel: Retail"] else []) ++
    (if reSearch multiPat ql then ["Pack: Multipack"] else []) ++
    (if reSearch singlePat ql then ["Pack: Single"] else []) ++
    (if reSearch age1834Pat ql then ["Age: 18-34"] else []) ++
    (if reSearch age3554Pat ql then ["Age: 35-54"] else []) ++
    (if reSearch age55Pat ql then ["Age: 55+"] else [])
  let filters : List String :=
    if intent = "channel_pack" then
      let f1 :=
        if filters0.any (fun f => strContains f "Channel") then filters0
        else filters0 ++ ["Channel: All (E-commerce, Retail)"]
      if f1.any (fun f => strContains f "Pack") then f1
      else f1 ++ ["Pack: All (Single, Multipack)"]
    else filters0
  ⟨data_sources, time_range, regions, filters⟩

/-! ### Pseudo-SQL reconstruction (`_generate_sql_query`) -/

def _generate_sql_query (intent : String) (md : Metadata) : String :=
  let sel_tbl_grp : String × String × String :=
    if intent = "trend" then
      ("SELECT date, SUM(sales_usd) as total_sales", "sales_facts", "GROUP BY date")
    else if intent = "growth_markets" then
      ("SELECT market, SUM(sales_usd) as total_sales", "sales_facts", "GROUP BY market")
    else if intent = "channel_pack" then
      ("SELECT channel, pack, SUM(sales_usd) as total_sales", "sales_facts",
       "GROUP BY channel, pack")
    else if intent = "segment_repeat" then
      ("SELECT age_bucket, AVG(repeat_rate) as avg_repeat_rate", "segment_analytics",
       "GROUP BY age_bucket")
    else
      ("SELECT occasion, share", "consumer_research", "")
  let select := sel_tbl_grp.1
  let table := sel_tbl_grp.2.1
  let group_by := sel_tbl_grp.2.2
  let tr := md.time_range.getD ""
  let timeClauses : List String :=
    if tr = "" then []
    else if strContains tr "2024" && !strContains tr "2023" then
      ["date >= '2024-01-01' AND date < '2025-01-01'"]
    else if strContains tr "2023" && !strContains tr "2024" then
      ["date >= '2023-01-01' AND date < '2024-01-01'"]
    else if strContains tr "Last 12 months" then
      ["date >= DATE_SUB(CURRENT_DATE, INTERVAL 12 MONTH)"]
    else if strContains tr "YoY" then
      ["date >= '2023-01-01' AND date < '2025-01-01'"]
    else []
  let regionClauses : List String :=
    match md.regions with
    | [] => []
    | r :: _ =>
        if strContains r "All markets" then []
        else ["market IN (" ++
              String.intercalate ", " (md.regions.map (fun x => "'" ++ x ++ "'")) ++ ")"]
  let channel_filters := md.filters.filter (fun f => strContains f "Channel")
  let channelClauses : List String :=
    match channel_filters with
    | [] => []
    | f :: _ =>
        if strContains f "E-commerce" then ["channel = 'ecommerce'"]
        else if strContains f "Retail" then ["channel = 'retail'"]
        else []
  let pack_filters := md.filters.filter (fun f => strContains f "Pack")
  let packClauses : List String :=
    match pack_filters with
    | [] => []
    | f :: _ =>
        if strContains f "Multipack" then ["pack = 'multipack'"]
        else if strContains f "Single" then ["pack = 'single'"]
        else []
  let age_filters := md.filters.filter (fun f => strContains f "Age")
  let ageClauses : List String :=
    match age_filters with
    | [] => []
    | _ =>
        let age_values := age_filters.map
          (fun f => ((f.split (fun c => c == ':')).drop 1).headD "" |>.trim)
        ["age_bucket IN (" ++
         String.intercalate ", " (age_values.map (fun a => "'" ++ a ++ "'")) ++ ")"]
  let productClauses : List String :=
    if intent = "trend" ∨ intent = "growth_markets" ∨ intent = "channel_pack" then
      ["product = 'yogurt'"]
    else []
  let where_clauses :=
    timeClauses ++ regionClauses ++ channelClauses ++ packClauses ++ ageClauses ++
    productClauses
  let q1 := select ++ "\nFROM " ++ table
  let q2 :=
    match where_clauses with
    | [] => q1
    | _ => q1 ++ "\nWHERE " ++ String.intercalate " AND " where_clauses
  let q3 := if group_by = "" then q2 else q2 ++ "\n" ++ group_by
  if intent = "growth_markets" then q3 ++ "\nORDER BY total_sales DESC\nLIMIT 3"
  else if intent = "occasions" then q3 ++ "\nORDER BY share DESC"
  else q3

/-! ### The intent handlers -/

/-- Rendering of a number into KPI / narrative strings. The source uses
fixed-decimal Python formats; the embedding renders the exact rational,
which is a deterministic function of the same value. -/
def qstr (x : ℚ) : String := toString x

/-- A table row: the key cells and the numeric cell of the source's row
dict. -/
def TableRow : Type := List String × ℚ

instance : DecidableEq TableRow := inferInstanceAs (DecidableEq (List String × ℚ))

structure HandlerResult where
  intent : String
  kpis : List (String × String)
  text : List String
  table : List TableRow
  chart_path : Option String
deriving DecidableEq

def sumSales (facts : List SalesFact) (p : SalesFact → Bool) : ℚ :=
  ((facts.filter p).map SalesFact.sales_usd).sum

/-- `((facts_2024 - facts_2023) / facts_2023 * 100)` for one group key. -/
def yoySales (facts : List SalesFact) (p : SalesFact → Bool) : ℚ :=
  let t23 := sumSales facts (fun f => f.year == 2023 && p f)
  let t24 := sumSales facts (fun f => f.year == 2024 && p f)
  (t24 - t23) / t23 * 100

/-- Descending order on the numeric component, for
`sort_values(ascending=False)`. -/
def geSnd {α : Type} : (α × ℚ) → (α × ℚ) → Prop := fun a b => b.2 ≤ a.2

instance {α : Type} : DecidableRel (geSnd (α := α)) :=
  fun a b => inferInstanceAs (Decidable (b.2 ≤ a.2))

instance {α : Type} : IsTotal (α × ℚ) geSnd := ⟨fun a b => le_total b.2 a.2⟩

instance {α : Type} : IsTrans (α × ℚ) geSnd := ⟨fun _ _ _ h1 h2 => le_trans h2 h1⟩

def sortByValDesc {α : Type} (l : List (α × ℚ)) : List (α × ℚ) :=
  List.insertionSort geSnd l

/-- `date.strftime('%Y-%m-%d')` for a month start. -/
def monthLabel (y m : Nat) : String :=
  toString y ++ "-" ++ (if m < 10 then "0" ++ toString m else toString m) ++ "-01"

/-- `_handle_trend`: 2024 facts grouped by date (the 12 distinct month
starts, in date order), summed and reported. The chart file written by the
source is a side effect outside the returned value; only its path is
modelled. -/
def _handle_trend (env : PyEnv) (s : RandState) : HandlerResult × RandState :=
  let fr := _generate_facts env s
  let facts := fr.1
  let monthly : List (Nat × ℚ) :=
    (List.range 12).map
      (fun i => (i + 1, sumSales facts (fun f => f.year == 2024 && f.month == i + 1)))
  let start_val := (monthly.headD (0, 0)).2
  let end_val := (monthly.getLastD (0, 0)).2
  let pct_change := (end_val - start_val) / start_val * 100
  (⟨"trend",
    [("Start (Jan 2024)", qstr start_val), ("End (Dec 2024)", qstr end_val),
     ("Change", qstr pct_change)],
    ["Yogurt sales in 2024 started at " ++ qstr start_val ++ " in January.",
     "By December, sales reached " ++ qstr end_val ++ ".",
     "This represents a " ++ qstr pct_change ++ "% change over the year."],
    monthly.map (fun p => ([monthLabel 2024 p.1], p.2)),
    some "trend.png"⟩, fr.2)

/-- `_handle_growth_markets`: YoY percent per market, sorted descending,
top 3. -/
def _handle_growth_markets (env : PyEnv) (s : RandState) : HandlerResult × RandState :=
  let fr := _generate_facts env s
  let facts := fr.1
  let yoy := sortByValDesc
    (markets.map (fun m => (m, yoySales facts (fun f => f.market == m))))
  let top3 := yoy.take 3
  let e0 := top3.getD 0 ("", 0)
  let e1 := top3.getD 1 ("", 0)
  let e2 := top3.getD 2 ("", 0)
  (⟨"growth_markets",
    [("Top Market", e0.1 ++ " (" ++ qstr e0.2 ++ "%)"),
     ("2nd Market", e1.1 ++ " (" ++ qstr e1.2 ++ "%)"),
     ("3rd Market", e2.1 ++ " (" ++ qstr e2.2 ++ "%)")],
    ["The top 3 growth markets for yogurt are:",
     "1. " ++ e0.1 ++ " with " ++ qstr e0.2 ++ "% YoY growth",
     "2. " ++ e1.1 ++ " with " ++ qstr e1.2 ++ "% YoY growth",
     "3. " ++ e2.1 ++ " with " ++ qstr e2.2 ++ "% YoY growth"],
    top3.map (fun p => ([p.1], p.2)),
    none⟩, fr.2)

def avgRepeat (segs : List SegmentStat) (a : String) : ℚ :=
  let rates := (segs.filter (fun r => r.age_bucket == a)).map SegmentStat.repeat_rate
  rates.sum / rates.length

/-- `_handle_segment_repeat`: mean repeat rate per age bucket (groupby
yields the three buckets), sorted descending. -/
def _handle_segment_repeat (env : PyEnv) (s : RandState) : HandlerResult × RandState :=
  let sr := _generate_segments env s
  let segs := sr.1
  let avg := sortByValDesc (age_buckets.map (fun a => (a, avgRepeat segs a)))
  let e0 := avg.getD 0 ("", 0)
  let e1 := avg.getD 1 ("", 0)
  let e2 := avg.getD 2 ("", 0)
  (⟨"segment_repeat",
    [("Highest Repeat Rate", e0.1 ++ " (" ++ qstr e0.2 ++ ")")],
    ["Average repeat rates by age segment:",
     "- " ++ e0.1 ++ ": " ++ qstr e0.2,
     "- " ++ e1.1 ++ ": " ++ qstr e1.2,
     "- " ++ e2.1 ++ ": " ++ qstr e2.2,
     "The " ++ e0.1 ++ " segment has the highest repeat rate at " ++ qstr e0.2 ++ "."],
    avg.map (fun p => ([p.1], p.2)),
    none⟩, sr.2)

/-- `_handle_occasions`: the static list sorted by share descending; no
random state is touched. -/
def _handle_occasions (_env : PyEnv) (s : RandState) : HandlerResult × RandState :=
  let sorted := sortByValDesc _get_occasions
  let e0 := sorted.getD 0 ("", 0)
  let e1 := sorted.getD 1 ("", 0)
  let e2 := sorted.getD 2 ("", 0)
  let e3 := sorted.getD 3 ("", 0)
  (⟨"occasions",
    [("Top Occasion", e0.1 ++ " (" ++ qstr e0.2 ++ ")")],
    ["Top consumption occasions for shelf-stable yogurt:",
     "1. " ++ e0.1 ++ ": " ++ qstr e0.2,
     "2. " ++ e1.1 ++ ": " ++ qstr e1.2,
     "3. " ++ e2.1 ++ ": " ++ qstr e2.2,
     "4. " ++ e3.1 ++ ": " ++ qstr e3.2],
    sorted.map (fun p => ([p.1], p.2)),
    none⟩, s)

/-- The four (channel, pack) group keys, in the sorted key order pandas
groupby produces. -/
def channelPackCombos : List (String × String) :=
  [("ecommerce", "multipack"), ("ecommerce", "single"),
   ("retail", "multipack"), ("retail", "single")]

/-- `_handle_channel_pack`: YoY percent per (channel, pack) pair, sorted
descending. -/
def _handle_channel_pack (env : PyEnv) (s : RandState) : HandlerResult × RandState :=
  let fr := _generate_facts env s
  let facts := fr.1
  let yoy := sortByValDesc
    (channelPackCombos.map
      (fun cp => (cp, yoySales facts (fun f => f.channel == cp.1 && f.pack == cp.2))))
  let e0 := yoy.getD 0 (("", ""), 0)
  let e1 := yoy.getD 1 (("", ""), 0)
  let e2 := yoy.getD 2 (("", ""), 0)
  let e3 := yoy.getD 3 (("", ""), 0)
  (⟨"channel_pack",
    [("Fastest Growing", e0.1.1 ++ "-" ++ e0.1.2 ++ " (" ++ qstr e0.2 ++ "%)")],
    ["YoY growth by channel and pack:",
     "- " ++ e0.1.1 ++ " " ++ e0.1.2 ++ ": " ++ qstr e0.2 ++ "%",
     "- " ++ e1.1.1 ++ " " ++ e1.1.2 ++ ": " ++ qstr e1.2 ++ "%",
     "- " ++ e2.1.1 ++ " " ++ e2.1.2 ++ ": " ++ qstr e2.2 ++ "%",
     "- " ++ e3.1.1 ++ " " ++ e3.1.2 ++ ": " ++ qstr e3.2 ++ "%",
     "The fastest growing combination is " ++ e0.1.1 ++ " " ++ e0.1.2 ++ " with " ++
       qstr e0.2 ++ "% growth."],
    yoy.map (fun p => ([p.1.1, p.1.2], p.2)),
    none⟩, fr.2)

/-! ### The answer assembler (`answer`) -/

structure Answer where
  intent : String
  kpis : List (String × String)
  text : List String
  table : List TableRow
  chart_path : Option String
  metadata : Metadata
  sql_query : String
deriving DecidableEq

/-- `handlers.get(intent, _handle_trend)` followed by the call. -/
def runHandler (env : PyEnv) (intent : String) (s : RandState) :
    HandlerResult × RandState :=
  if intent = "trend" then _handle_trend env s
  else if intent = "growth_markets" then _handle_growth_markets env s
  else if intent = "segment_repeat" then _handle_segment_repeat env s
  else if intent = "occasions" then _handle_occasions env s
  else if intent = "channel_pack" then _handle_channel_pack env s
  else _handle_trend env s

/-- `answer`: route, run the handler, extract metadata, build the query
string, merge. The source's `setdefault` calls are no-ops here because
every `HandlerResult` field is always present. -/
def answer (env : PyEnv) (question : String) (s : RandState) : Answer × RandState :=
  let intent := _route_intent question
  let hr := runHandler env intent s
  let result := hr.1
  let metadata := _extract_metadata question intent
  let sql_query := _generate_sql_query intent metadata
  (⟨result.intent, result.kpis, result.text, result.table, result.chart_path,
    metadata, sql_query⟩, hr.2)

/-! ### Helper lemmas about the generators -/

/-- The loop index a fact row was generated for. -/
def factKey (f : SalesFact) : FactCombo := ((f.year, f.month), f.market, f.channel, f.pack)

/-- The loop index a segment row was generated for. -/
def segKey (r : SegmentStat) : String × String := (r.market, r.age_bucket)

theorem genFactRows_length (env : PyEnv) (l : List FactCombo) :
    ∀ s : RandState, ((genFactRows env l s).1).length = l.length := by
  induction l with
  | nil => intro s; rfl
  | cons c rest ih => intro s; simp [genFactRows, ih]

theorem genFactRows_map_key (env : PyEnv) (l : List FactCombo) :
    ∀ s : RandState, ((genFactRows env l s).1).map factKey = l := by
  induction l with
  | nil => intro s; rfl
  | cons c rest ih => intro s; simp [genFactRows, genFactRow, factKey, ih]

theorem genFactRows_nonneg (env : PyEnv) (l : List FactCombo) :
    ∀ s : RandState, ∀ f ∈ (genFactRows env l s).1, 0 ≤ f.sales_usd ∧ 0 ≤ f.units := by
  induction l with
  | nil => intro s f hf; simp [genFactRows] at hf
  | cons c rest ih =>
      intro s f hf
      simp only [genFactRows, List.mem_cons] at hf
      rcases hf with h | h
      · subst h
        exact ⟨le_max_left 0 _, le_max_left 0 _⟩
      · exact ih _ f h

theorem genSegRows_length (env : PyEnv) (l : List (String × String)) :
    ∀ s : RandState, ((genSegRows env l s).1).length = l.length := by
  induction l with
  | nil => intro s; rfl
  | cons c rest ih => intro s; simp [genSegRows, ih]

theorem genSegRows_map_key (env : PyEnv) (l : List (String × String)) :
    ∀ s : RandState, ((genSegRows env l s).1).map segKey = l := by
  induction l with
  | nil => intro s; rfl
  | cons c rest ih => intro s; simp [genSegRows, genSegRow, segKey, ih]

theorem genSegRows_bounds (env : PyEnv) (l : List (String × String)) :
    ∀ s : RandState, ∀ r ∈ (genSegRows env l s).1,
      r.year = 2024 ∧ r.trial_rate ≤ 1 ∧ r.repeat_rate ≤ 1 := by
  induction l with
  | nil => intro s r hr; simp [genSegRows] at hr
  | cons c rest ih =>
      intro s r hr
      simp only [genSegRows, List.mem_cons] at hr
      rcases hr with h | h
      · subst h
        exact ⟨rfl, min_le_left 1 _, min_le_left 1 _⟩
      · exact ih _ r h

/-! ### More helper lemmas: state-independence of the handlers, routing range -/

theorem runHandler_fst_const (env : PyEnv) (i : String) (s s' : RandState) :
    (runHandler env i s).1 = (runHandler env i s').1 := by
  unfold runHandler
  split_ifs <;> rfl

theorem runHandler_intent_mem (env : PyEnv) (i : String) (s : RandState) :
    (runHandler env i s).1.intent ∈
      ["trend", "growth_markets", "segment_repeat", "occasions", "channel_pack"] := by
  unfold runHandler
  split_ifs <;>
    simp [_handle_trend, _handle_growth_markets, _handle_segment_repeat,
      _handle_occasions, _handle_channel_pack]

theorem runHandler_text_ne_nil (env : PyEnv) (i : String) (s : RandState) :
    (runHandler env i s).1.text ≠ [] := by
  unfold runHandler
  split_ifs <;>
    simp [_handle_trend, _handle_growth_markets, _handle_segment_repeat,
      _handle_occasions, _handle_channel_pack]

/-! ### Spec-side views for region detection -/

/-- Spec-side view of the detection loop: the codes of the matching market
patterns, in the fixed order the source tests them (US, UK, DE, IN, BR). -/
def detectedSpec (q : String) : List String :=
  (marketPatterns.filter (fun pr => boundedSearch pr.1 (lowerStr q))).map Prod.snd

/-- The sentinel regions value `_extract_metadata` uses when no market is
detected: the all-markets list for the four data-backed intents, "Global"
otherwise (in particular for occasions). -/
def regionSentinel (intent : String) : List String :=
  if intent = "trend" ∨ intent = "growth_markets" ∨ intent = "channel_pack"
      ∨ intent = "segment_repeat" then [allMarketsSentinel]
  else ["Global"]

/-- Ascending order on the numeric component, for sorting detected markets
by first match position. -/
def leSndNat {α : Type} : (α × Nat) → (α × Nat) → Prop := fun a b => a.2 ≤ b.2

instance {α : Type} : DecidableRel (leSndNat (α := α)) :=
  fun a b => inferInstanceAs (Decidable (a.2 ≤ b.2))

/-- The detected market codes in first-seen order in the question text: each
detected code paired with the position of its first (word-bounded) match in
the lower-cased question, sorted by that position. This is the ordering the
claim asserts for the regions list. -/
def firstSeenOrder (q : String) : List String :=
  let ql := lowerStr q
  let withPos := marketPatterns.filterMap (fun pr =>
    match boundedFirstPos pr.1 ql with
    | some i => some (pr.2, i)
    | none => none)
  (List.insertionSort leSndNat withPos).map Prod.fst

theorem detectMarketsAux_eq (ql : List Char) :
    ∀ (ps : List (Regex × String)) (acc : List String),
      (∀ pr ∈ ps, pr.2 ∉ acc) → (ps.map Prod.snd).Nodup →
      detectMarketsAux ps acc ql
        = acc ++ (ps.filter (fun pr => boundedSearch pr.1 ql)).map Prod.snd := by
  intro ps
  induction ps with
  | nil => intro acc _ _; simp [detectMarketsAux]
  | cons pr rest ih =>
      intro acc hacc hnd
      obtain ⟨r, code⟩ := pr
      simp only [List.map_cons, List.nodup_cons] at hnd
      cases hb : boundedSearch r ql with
      | false =>
          have step : detectMarketsAux ((r, code) :: rest) acc ql
              = detectMarketsAux rest acc ql := by
            simp [detectMarketsAux, hb]
          rw [step, ih acc (fun p hp => hacc p (List.mem_cons_of_mem _ hp)) hnd.2,
            List.filter_cons]
          simp [hb]
      | true =>
          have hnotin : code ∉ acc := hacc (r, code) (List.mem_cons_self _ _)
          have hrest : ∀ p ∈ rest, p.2 ∉ acc ++ [code] := by
            intro p hp
            simp only [List.mem_append, List.mem_singleton]
            rintro (h | h)
            · exact hacc p (List.mem_cons_of_mem _ hp) h
            · exact hnd.1 (h ▸ List.mem_map_of_mem Prod.snd hp)
          have step : detectMarketsAux ((r, code) :: rest) acc ql
              = detectMarketsAux rest (acc ++ [code]) ql := by
            simp [detectMarketsAux, hb, hnotin]
          rw [step, ih _ hrest hnd.2, List.filter_cons]
          simp [hb]

theorem detectMarkets_eq_filter (ql : List Char) :
    detectMarkets ql
      = (marketPatterns.filter (fun pr => boundedSearch pr.1 ql)).map Prod.snd := by
  have h := detectMarketsAux_eq ql marketPatterns [] (by simp) (by decide)
  simpa [detectMarkets] using h

theorem detectedSpec_nodup (q : String) : (detectedSpec q).Nodup := by
  have hsub : (detectedSpec q).Sublist (marketPatterns.map Prod.snd) :=
    List.Sublist.map Prod.snd (List.filter_sublist marketPatterns)
  exact List.Nodup.sublist hsub (by decide)

/-- The regions component of `_extract_metadata`, extracted by definitional
unfolding. -/
theorem extract_metadata_regions (q intent : String) :
    (_extract_metadata q intent).regions =
      (if detectMarkets (lowerStr q) = [] then
        (if intent = "trend" ∨ intent = "growth_markets" ∨ intent = "channel_pack"
          then [allMarketsSentinel]
         else if intent = "segment_repeat" then [allMarketsSentinel]
         else ["Global"])
      else detectMarkets (lowerStr q)) := rfl

/-! ### Claim theorems -/

/-- C1: for every question, `_route_intent` lower-cases it and returns the
label of the first of the five patterns (trend, growth_markets,
segment_repeat, occasions, channel_pack, tested in that fixed order) that
matches, with default "trend" when none matches; and whenever the trend
pattern matches (e.g. the question contains "monthly"), the result is
"trend" no matter which later patterns also match. -/
theorem c1_route_intent_first_match (q : String) :
    _route_intent q = firstLabel "trend" routeTable (lowerStr q) ∧
    (reSearch trendPat (lowerStr q) = true → _route_intent q = "trend") := by
  constructor
  · rfl
  · intro h
    simp [_route_intent, h]

/-- C1 witness: "Show monthly repeat rate" matches both the trend pattern
("monthly") and the segment_repeat pattern ("repeat rate") and resolves to
"trend". -/
theorem c1_route_intent_first_match_witness :
    reSearch trendPat (lowerStr "Show monthly repeat rate") = true ∧
    _route_intent "Show monthly repeat rate" = "trend" :=
  ⟨by decide, (c1_route_intent_first_match "Show monthly repeat rate").2 (by decide)⟩

/-- C2: `answer` is deterministic in the global random state: for any two
states (in particular, for two sequential calls in one process) the `table`
and `kpis` of the answer coincide, because every handler reseeds the shared
random source before regenerating its data. -/
theorem c2_answer_deterministic (env : PyEnv) (q : String) (s s' : RandState) :
    (answer env q s).1.table = (answer env q s').1.table ∧
    (answer env q s).1.kpis = (answer env q s').1.kpis := by
  have h := runHandler_fst_const env (_route_intent q) s s'
  refine ⟨?_, ?_⟩
  · show (runHandler env (_route_intent q) s).1.table
        = (runHandler env (_route_intent q) s').1.table
    rw [h]
  · show (runHandler env (_route_intent q) s).1.kpis
        = (runHandler env (_route_intent q) s').1.kpis
    rw [h]

/-- C3 counterexample: at a concrete environment and input state the fact
table has 480 rows, not 240 as claimed. -/
theorem c3_generate_facts_not_240 :
    (_generate_facts ⟨fun _ _ => 0, fun _ => 0⟩ (npSeed 0)).1.length = 480 ∧
    (_generate_facts ⟨fun _ _ => 0, fun _ => 0⟩ (npSeed 0)).1.length ≠ 240 := by
  have h : (_generate_facts (⟨fun _ _ => 0, fun _ => 0⟩ : PyEnv) (npSeed 0)).1.length
      = 480 := by
    show (genFactRows _ factCombos (npSeed 42)).1.length = 480
    rw [genFactRows_length]
    decide
  rw [h]
  exact ⟨rfl, by decide⟩

/-- C3 (amended): every call to `_generate_facts` returns exactly 480 rows —
one row per combination of month (Jan 2023 through Dec 2024), market,
channel and pack, in loop order — and every row satisfies
`sales_usd ≥ 0` and `units ≥ 0`. -/
theorem c3_generate_facts_shape (env : PyEnv) (s : RandState) :
    (_generate_facts env s).1.length = 480 ∧
    (_generate_facts env s).1.map factKey = factCombos ∧
    ∀ f ∈ (_generate_facts env s).1, 0 ≤ f.sales_usd ∧ 0 ≤ f.units := by
  refine ⟨?_, genFactRows_map_key env factCombos _, genFactRows_nonneg env factCombos _⟩
  show (genFactRows env factCombos (npSeed 42)).1.length = 480
  rw [genFactRows_length]
  decide

/-- C4: every call to `_generate_segments` returns exactly 15 rows — one per
(market, age_bucket) pair, each with year 2024 — and every row has
`trial_rate ≤ 1` and `repeat_rate ≤ 1`; and since no lower clamp is applied,
rates below 0 are possible in principle (exhibited by a noise stream with a
large negative draw). -/
theorem c4_generate_segments_spec :
    (∀ (env : PyEnv) (s : RandState),
        (_generate_segments env s).1.length = 15 ∧
        (_generate_segments env s).1.map segKey = segCombos ∧
        ∀ r ∈ (_generate_segments env s).1,
          r.year = 2024 ∧ r.trial_rate ≤ 1 ∧ r.repeat_rate ≤ 1) ∧
    (∃ (env : PyEnv) (s : RandState), ∃ r ∈ (_generate_segments env s).1,
        r.trial_rate < 0) := by
  constructor
  · intro env s
    refine ⟨?_, genSegRows_map_key env segCombos _, genSegRows_bounds env segCombos _⟩
    show (genSegRows env segCombos (npSeed 42)).1.length = 15
    rw [genSegRows_length]
    decide
  · exact ⟨⟨fun _ _ => -100, fun _ => 0⟩, npSeed 0, by with_unfolding_all decide⟩

/-- C5: the growth_markets handler returns a table of exactly 3 rows; each
row is a market with YoY percent (2024 total − 2023 total) / 2023 total ×
100 over the freshly generated facts; the values are sorted descending, and
the table is the first 3 of a descending-sorted rearrangement of all 5
markets' YoY pairs. -/
theorem c5_growth_markets_table (env : PyEnv) (s : RandState) :
    (_handle_growth_markets env s).1.table.length = 3 ∧
    (∀ r ∈ (_handle_growth_markets env s).1.table, ∃ m ∈ markets,
        r = ([m],
          (sumSales (_generate_facts env s).1 (fun f => f.year == 2024 && f.market == m)
            - sumSales (_generate_facts env s).1 (fun f => f.year == 2023 && f.market == m))
          / sumSales (_generate_facts env s).1 (fun f => f.year == 2023 && f.market == m)
          * 100)) ∧
    ((_handle_growth_markets env s).1.table.map Prod.snd).Sorted (fun a b => b ≤ a) ∧
    ∃ l' : List (String × ℚ), l'.Perm (markets.map (fun m =>
          (m, yoySales (_generate_facts env s).1 (fun f => f.market == m)))) ∧
      l'.Sorted geSnd ∧
      (_handle_growth_markets env s).1.table = (l'.take 3).map (fun p => ([p.1], p.2)) := by
  have ht : (_handle_growth_markets env s).1.table
      = ((sortByValDesc (markets.map (fun m =>
          (m, yoySales (_generate_facts env s).1 (fun f => f.market == m))))).take 3).map
          (fun p => ([p.1], p.2)) := rfl
  refine ⟨?_, ?_, ?_, ?_⟩
  · rw [ht, List.length_map, List.length_take]
    simp only [sortByValDesc]
    rw [List.length_insertionSort, List.length_map]
    decide
  · intro r hr
    rw [ht] at hr
    obtain ⟨p, hp, rfl⟩ := List.mem_map.mp hr
    have hp1 : p ∈ sortByValDesc (markets.map (fun m =>
        (m, yoySales (_generate_facts env s).1 (fun f => f.market == m)))) :=
      List.mem_of_mem_take hp
    have hp2 := (List.mem_insertionSort geSnd).mp hp1
    obtain ⟨m, hm, rfl⟩ := List.mem_map.mp hp2
    exact ⟨m, hm, rfl⟩
  · have hs := List.sorted_insertionSort geSnd (markets.map (fun m =>
        (m, yoySales (_generate_facts env s).1 (fun f => f.market == m))))
    have hst := List.Pairwise.sublist (List.take_sublist 3 _) hs
    rw [ht, List.map_map]
    exact List.Pairwise.map _ (fun a b h => h) hst
  · refine ⟨sortByValDesc (markets.map (fun m =>
        (m, yoySales (_generate_facts env s).1 (fun f => f.market == m)))),
      List.perm_insertionSort geSnd _, List.sorted_insertionSort geSnd _, ht⟩

/-- C6: the channel_pack handler returns a table of exactly 4 rows covering
all four (channel, pack) combinations, each with its YoY percent over the
freshly generated facts, sorted in descending order of YoY percent. -/
theorem c6_channel_pack_table (env : PyEnv) (s : RandState) :
    (_handle_channel_pack env s).1.table.length = 4 ∧
    (∀ cp ∈ channelPackCombos,
        ([cp.1, cp.2], yoySales (_generate_facts env s).1
          (fun f => f.channel == cp.1 && f.pack == cp.2))
          ∈ (_handle_channel_pack env s).1.table) ∧
    (∀ r ∈ (_handle_channel_pack env s).1.table, ∃ cp ∈ channelPackCombos,
        r = ([cp.1, cp.2], yoySales (_generate_facts env s).1
          (fun f => f.channel == cp.1 && f.pack == cp.2))) ∧
    ((_handle_channel_pack env s).1.table.map Prod.snd).Sorted (fun a b => b ≤ a) := by
  have ht : (_handle_channel_pack env s).1.table
      = (sortByValDesc (channelPackCombos.map (fun cp =>
          (cp, yoySales (_generate_facts env s).1
            (fun f => f.channel == cp.1 && f.pack == cp.2))))).map
          (fun p => ([p.1.1, p.1.2], p.2)) := rfl
  refine ⟨?_, ?_, ?_, ?_⟩
  · rw [ht, List.length_map]
    simp only [sortByValDesc]
    rw [List.length_insertionSort, List.length_map]
    decide
  · intro cp hcp
    rw [ht]
    have hmem : (cp, yoySales (_generate_facts env s).1
        (fun f => f.channel == cp.1 && f.pack == cp.2)) ∈
        sortByValDesc (channelPackCombos.map (fun cp =>
          (cp, yoySales (_generate_facts env s).1
            (fun f => f.channel == cp.1 && f.pack == cp.2)))) :=
      (List.mem_insertionSort geSnd).mpr (List.mem_map_of_mem _ hcp)
    exact List.mem_map_of_mem (fun p => ([p.1.1, p.1.2], p.2)) hmem
  · intro r hr
    rw [ht] at hr
    obtain ⟨p, hp, rfl⟩ := List.mem_map.mp hr
    have hp2 := (List.mem_insertionSort geSnd).mp hp
    obtain ⟨cp, hc, rfl⟩ := List.mem_map.mp hp2
    exact ⟨cp, hc, rfl⟩
  · have hs := List.sorted_insertionSort geSnd (channelPackCombos.map (fun cp =>
        (cp, yoySales (_generate_facts env s).1
          (fun f => f.channel == cp.1 && f.pack == cp.2))))
    rw [ht, List.map_map]
    exact List.Pairwise.map _ (fun a b h => h) hs

/-- C7 counterexample: for "growth in the uk and us market" the code returns
["US", "UK"] (the fixed pattern-test order), but the first-seen order in the
question text is ["UK", "US"], so the regions list is not in first-seen
order as claimed. -/
theorem c7_regions_not_first_seen :
    (_extract_metadata "growth in the uk and us market" "growth_markets").regions
        = ["US", "UK"] ∧
    firstSeenOrder "growth in the uk and us market" = ["UK", "US"] ∧
    (_extract_metadata "growth in the uk and us market" "growth_markets").regions
        ≠ firstSeenOrder "growth in the uk and us market" :=
  ⟨by decide, by decide, by decide⟩

/-- C7 (amended): the regions list contains the detected market codes in the
fixed pattern-test order US, UK, DE, IN, BR (not first-seen order in the
question text), de-duplicated; for "growth in the US and UK market" the
result is exactly ["US", "UK"]; and when no market is detected the list is
the non-empty sentinel (all-markets, or "Global" for the occasions intent),
never the empty list. -/
theorem c7_regions_pattern_order :
    (∀ q intent : String,
        (_extract_metadata q intent).regions =
          (if detectedSpec q = [] then regionSentinel intent else detectedSpec q) ∧
        (_extract_metadata q intent).regions ≠ [] ∧
        (_extract_metadata q intent).regions.Nodup) ∧
    (_extract_metadata "growth in the US and UK market" "growth_markets").regions
      = ["US", "UK"] := by
  constructor
  · intro q intent
    have hreg :
        (_extract_metadata q intent).regions =
          (if detectedSpec q = [] then regionSentinel intent else detectedSpec q) := by
      rw [extract_metadata_regions, detectMarkets_eq_filter]
      show (if detectedSpec q = [] then _ else detectedSpec q) = _
      by_cases hd : detectedSpec q = []
      · simp only [hd, if_pos rfl, regionSentinel]
        split_ifs <;> first | rfl | tauto
      · simp [hd]
    refine ⟨hreg, ?_, ?_⟩
    · rw [hreg]
      by_cases hd : detectedSpec q = []
      · simp only [hd, if_pos rfl, regionSentinel]
        split_ifs <;> simp
      · simp [hd]
    · rw [hreg]
      by_cases hd : detectedSpec q = []
      · simp only [hd, if_pos rfl, regionSentinel]
        split_ifs <;> simp
      · simpa [hd] using detectedSpec_nodup q
  · decide

/-- C8: for intent "trend" with time_range "2024", the all-markets sentinel
region and no filters, the reconstructed query is exactly the documented
string (in particular it begins with it): SELECT/FROM, a WHERE clause whose
clauses appear in the order time range then product, and the GROUP BY. -/
theorem c8_sql_query_trend :
    _generate_sql_query "trend"
      ⟨["Insights360 - Sales Facts"], some "2024", [allMarketsSentinel], []⟩
      = "SELECT date, SUM(sales_usd) as total_sales\nFROM sales_facts\nWHERE date >= '2024-01-01' AND date < '2025-01-01' AND product = 'yogurt'\nGROUP BY date" := by
  rfl

/-- C9: for every question, `answer` yields an intent that is one of the five
labels (a non-null string), a non-empty text list, and carries the kpis,
table, metadata and sql_query fields (set from the handler result, the
metadata extractor and the query builder respectively). -/
theorem c9_answer_shape (env : PyEnv) (q : String) (s : RandState) :
    (answer env q s).1.intent ∈
      ["trend", "growth_markets", "segment_repeat", "occasions", "channel_pack"] ∧
    (answer env q s).1.text ≠ [] ∧
    (answer env q s).1.kpis = (runHandler env (_route_intent q) s).1.kpis ∧
    (answer env q s).1.table = (runHandler env (_route_intent q) s).1.table ∧
    (answer env q s).1.metadata = _extract_metadata q (_route_intent q) ∧
    (answer env q s).1.sql_query
      = _generate_sql_query (_route_intent q) (_extract_metadata q (_route_intent q)) := by
  refine ⟨?_, ?_, rfl, rfl, rfl, rfl⟩
  · show (runHandler env (_route_intent q) s).1.intent ∈ _
    exact runHandler_intent_mem env _ s
  · show (runHandler env (_route_intent q) s).1.text ≠ []
    exact runHandler_text_ne_nil env _ s

end Ask360

namespace Ask360

example : _route_intent "How is yogurt doing?" = "trend" := by decide

example : _route_intent "Which are the fastest growing markets?" = "growth_markets" := by decide

example : _route_intent "repeat rate by segment" = "segment_repeat" := by decide

example : _route_intent "top consumption occasions" = "occasions" := by decide

example : _route_intent "did ecommerce multipack or retail single grow?" = "channel_pack" := by decide

example : _route_intent "hello" = "trend" := by decide

example : factCombos.length = 480 := by decide

example : segCombos.length = 15 := by decide

example : (_extract_metadata "growth in the US and UK market" "growth_markets").regions
    = ["US", "UK"] := by decide

example : detectMarkets (lowerStr "growth in the uk and us market") = ["US", "UK"] := by
  decide

example : detectMarkets (lowerStr "how is india doing") = ["IN"] := by decide

example : detectMarkets (lowerStr "sales in germany") = ["DE"] := by decide

example : detectMarkets (lowerStr "trend for yogurt") = [] := by decide

example : _generate_sql_query "trend"
    ⟨["Insights360 - Sales Facts"], some "2024", [allMarketsSentinel], []⟩
    = "SELECT date, SUM(sales_usd) as total_sales\nFROM sales_facts\nWHERE date >= '2024-01-01' AND date < '2025-01-01' AND product = 'yogurt'\nGROUP BY date" := by
  rfl

example : ((_handle_growth_markets ⟨fun _ _ => 0, fun _ => 0⟩ (npSeed 0)).1.table.map
    Prod.snd) = [25, 25, 25] := by with_unfolding_all decide

example : (_handle_channel_pack ⟨fun _ _ => 0, fun _ => 0⟩ (npSeed 0)).1.table.length
    = 4 := by with_unfolding_all decide

example : ((_handle_occasions ⟨fun _ _ => 0, fun _ => 0⟩ (npSeed 0)).1.table.map
    Prod.fst) = [["breakfast"], ["snack"], ["post-workout"], ["late-night"]] := by
  with_unfolding_all decide

example : (answer ⟨fun _ _ => 0, fun _ => 0⟩ "when do people consume yogurt?"
    (npSeed 7)).1.intent = "occasions" := by with_unfolding_all decide

end Ask360
